import Mathlib

/-!
Verification of the color-palette engine of tidyplots-python.

The embedding follows `src/tidyplots/palettes.py`. The registry `PALETTES`
is the module-level dict: the hardcoded journal palettes followed by one
8-color entry per matplotlib colormap name. Matplotlib itself (the colormap
evaluation `plt.get_cmap(...)(...)` and `rgb2hex`) is external library code,
so it enters the embedding as explicit function parameters `cmap` and
`rgb2hex`; everything proved below holds for every choice of those
parameters.

Python-level behaviors that matter here are modelled explicitly:
errors raised by `get_palette` become an `Except` error value, the
`i % len(palette)` indexing raises `ZeroDivisionError` on an empty palette,
`range(n)` of a non-positive `n` is empty, and calling a function with a
keyword argument that is not in its parameter list raises `TypeError`.
-/

namespace Tidyplots

/-- Python exceptions that the palette code can raise. -/
inductive PyError where
  /-- `ValueError(msg)` -/
  | valueError (msg : String)
  /-- `ZeroDivisionError` from `i % len(palette)` when the palette is empty. -/
  | zeroDivisionError
  /-- `TypeError(msg)`, e.g. an unexpected keyword argument. -/
  | typeError (msg : String)
  deriving Repr, DecidableEq

deriving instance DecidableEq for Except

/-- The hardcoded journal/organization palettes: the `PALETTES` dict literal
of `palettes.py` (lines 22-64), in insertion order. -/
def JOURNAL_PALETTES : List (String × List String) := [
  ("npg", ["#E64B35", "#4DBBD5", "#00A087", "#3C5488", "#F39B7F",
           "#8491B4", "#91D1C2", "#DC0000", "#7E6148", "#B09C85"]),
  ("aaas", ["#3B4992", "#EE0000", "#008B45", "#631879", "#008280",
            "#BB0021", "#5F559B", "#A20056", "#808180", "#1B1919"]),
  ("nejm", ["#BC3C29", "#0072B5", "#E18727", "#20854E", "#7876B1",
            "#6F99AD", "#FFDC91", "#EE4C97"]),
  ("lancet", ["#00468B", "#ED0000", "#42B540", "#0099B4", "#925E9F",
              "#FDAF91", "#AD002A", "#ADB6B6"]),
  ("jama", ["#374E55", "#DF8F44", "#00A1D5", "#B24745", "#79AF97",
            "#6A6599", "#80796B"]),
  ("jco", ["#0073C2", "#EFC000", "#868686", "#CD534C", "#7AA6DC",
           "#003C67", "#8F7700", "#3B3B3B"]),
  ("ucscgb", ["#FF0000", "#FF9900", "#00FF00", "#6600FF", "#0000FF",
              "#FFCC00", "#FF00CC", "#00FF00", "#FF6600"]),
  ("d3", ["#1F77B4", "#FF7F0E", "#2CA02C", "#D62728", "#9467BD",
          "#8C564B", "#E377C2", "#7F7F7F", "#BCBD22", "#17BECF"]),
  ("material", ["#2196F3", "#F44336", "#4CAF50", "#FFC107", "#9C27B0",
                "#FF9800", "#795548", "#607D8B"]),
  ("igv", ["#5050FF", "#CE3D32", "#749B58", "#F0B015", "#6783B0",
           "#B86A92", "#C1B02C", "#7F7F7F"]),
  ("dark2", ["#1B9E77", "#D95F02", "#7570B3", "#E7298A", "#66A61E",
             "#E6AB02", "#A6761D", "#666666"]),
  ("set1", ["#E41A1C", "#377EB8", "#4DAF4A", "#984EA3", "#FF7F00",
            "#FFFF33", "#A65628", "#F781BF"]),
  ("set2", ["#66C2A5", "#FC8D62", "#8DA0CB", "#E78AC3", "#A6D854",
            "#FFD92F", "#E5C494", "#B3B3B3"]),
  ("set3", ["#8DD3C7", "#FFFFB3", "#BEBADA", "#FB8072", "#80B1D3",
            "#FDB462", "#B3DE69", "#FCCDE5"])]

/-- `SEQUENTIAL_CMAPS` (palettes.py lines 67-71). -/
def SEQUENTIAL_CMAPS : List String :=
  ["viridis", "plasma", "inferno", "magma", "cividis",
   "Blues", "Greens", "Oranges", "Reds", "Purples",
   "YlOrBr", "YlOrRd", "OrRd", "PuRd", "RdPu"]

/-- `DIVERGING_CMAPS` (palettes.py lines 74-77). -/
def DIVERGING_CMAPS : List String :=
  ["PiYG", "PRGn", "BrBG", "PuOr", "RdGy", "RdBu",
   "RdYlBu", "RdYlGn", "Spectral", "coolwarm", "bwr"]

/-- `QUALITATIVE_CMAPS` (palettes.py lines 80-83). -/
def QUALITATIVE_CMAPS : List String :=
  ["Pastel1", "Pastel2", "Paired", "Accent",
   "tab10", "tab20", "tab20b", "tab20c"]

/-- `np.linspace(0, 1, n)`: `n` evenly spaced points from 0 to 1 inclusive.
`mkRat k (n-1)` is the exact quotient `k / (n-1)`. -/
def linspace01 (n : Nat) : List Rat :=
  (List.range n).map (fun (k : Nat) => if n ≤ 1 then 0 else mkRat (k : Int) (n - 1))

/-- Embeds `_create_cmap_colors` (palettes.py lines 15-19). The matplotlib
colormap object `plt.get_cmap(cmap_name)` and `rgb2hex` are external library
functions, abstracted as the parameters `cmap` and `rgb2hex`. -/
def _create_cmap_colors {α : Type} (cmap : Rat → α) (rgb2hex : α → String)
    (n_colors : Nat := 8) : List String :=
  (linspace01 n_colors).map (fun t => rgb2hex (cmap t))

/-- The full registry `PALETTES` after the loop at palettes.py lines 86-87:
the dict literal followed by one entry per matplotlib colormap name, in
insertion order. A Python dict with distinct keys is modelled as an
association list. -/
def PALETTES {α : Type} (cmap : String → Rat → α) (rgb2hex : α → String) :
    List (String × List String) :=
  JOURNAL_PALETTES ++
    (SEQUENTIAL_CMAPS ++ DIVERGING_CMAPS ++ QUALITATIVE_CMAPS).map
      (fun nm => (nm, _create_cmap_colors (cmap nm) rgb2hex 8))

/-- Dict lookup (`name in PALETTES` / `PALETTES[name]`): first entry whose
key matches. -/
def dictGet : List (String × List String) → String → Option (List String)
  | [], _ => none
  | (k, v) :: rest, key => if key = k then some v else dictGet rest key

/-- Python `repr` of a string (single-quoted). -/
def quoteStr (s : String) : String := "\x27" ++ s ++ "\x27"

/-- `", ".join(l)`. -/
def joinComma : List String → String
  | [] => ""
  | [s] => s
  | s :: rest => s ++ ", " ++ joinComma rest

/-- Python `repr` of a list of strings, as an f-string interpolates it. -/
def pyListRepr (l : List String) : String := "[" ++ joinComma (l.map quoteStr) ++ "]"

/-- `sorted(PALETTES.keys())`: the registry keys in ascending code-point
order (Python string comparison agrees with Lean's on these ASCII names). -/
def sortedKeys (reg : List (String × List String)) : List String :=
  (reg.map Prod.fst).mergeSort (fun a b => a ≤ b)

/-- The message of the `ValueError` raised at palettes.py line 112. -/
def unknown_palette_msg (reg : List (String × List String)) (name : String) : String :=
  "Unknown palette \x27" ++ name ++ "\x27. Available palettes: " ++ pyListRepr (sortedKeys reg)

/-- Embeds `get_palette` (palettes.py lines 89-119) over a given registry.
`n_colors = none` is Python `n_colors=None`. For an integer `n_colors`,
`range(n_colors)` is `List.range n.toNat` (empty when `n <= 0`), and
`palette[i % len(palette)]` raises `ZeroDivisionError` when the palette is
empty; otherwise the index `i % len(palette)` is in range, so `getD`'s
default is never produced. -/
def get_palette (reg : List (String × List String)) (name : String)
    (n_colors : Option Int := none) : Except PyError (List String) :=
  match dictGet reg name with
  | none => .error (.valueError (unknown_palette_msg reg name))
  | some palette =>
    match n_colors with
    | none => .ok palette
    | some n =>
      if palette.length = 0 then
        if n.toNat = 0 then .ok [] else .error .zeroDivisionError
      else
        .ok ((List.range n.toNat).map (fun i => palette.getD (i % palette.length) ""))

/-- The keyword parameters `def get_palette(name, n_colors=None)` accepts. -/
def get_palette_params : List String := ["name", "n_colors"]

/-- CPython call semantics for `get_palette(name, n_colors, **kwargs)`:
a keyword argument outside the parameter list raises
`TypeError: get_palette() got an unexpected keyword argument '...'`
before the function body runs. -/
def get_palette_call (reg : List (String × List String)) (name : String)
    (n_colors : Option Int) (kwargs : List (String × Int)) :
    Except PyError (List String) :=
  match kwargs.find? (fun kv => !get_palette_params.contains kv.1) with
  | some kv => .error (.typeError
      ("get_palette() got an unexpected keyword argument \x27" ++ kv.1 ++ "\x27"))
  | none => get_palette reg name n_colors

/-- The hex digit characters and their values, both cases accepted
(Python `int(s, 16)` is case-insensitive). -/
def HEX_DIGITS : List (Char × Nat) :=
  [('0', 0), ('1', 1), ('2', 2), ('3', 3), ('4', 4),
   ('5', 5), ('6', 6), ('7', 7), ('8', 8), ('9', 9),
   ('a', 10), ('b', 11), ('c', 12), ('d', 13), ('e', 14), ('f', 15),
   ('A', 10), ('B', 11), ('C', 12), ('D', 13), ('E', 14), ('F', 15)]

/-- The value of one hex digit character, or `none` for a non-hex character. -/
def hexDigitVal? (c : Char) : Option Nat :=
  (HEX_DIGITS.find? (fun p => p.1 == c)).map Prod.snd

/-- The lowercase hex digit character for a value in `0..15`. -/
def hexChar (n : Nat) : Char :=
  if n = 0 then '0' else if n = 1 then '1'
  else if n = 2 then '2' else if n = 3 then '3'
  else if n = 4 then '4' else if n = 5 then '5'
  else if n = 6 then '6' else if n = 7 then '7'
  else if n = 8 then '8' else if n = 9 then '9'
  else if n = 10 then 'a' else if n = 11 then 'b'
  else if n = 12 then 'c' else if n = 13 then 'd'
  else if n = 14 then 'e' else 'f'

/-- An RGB triple of normalized channel values (exact rationals model the
spec's demand that channel arithmetic be exact and round-trip safe). -/
abbrev RGB := Rat × Rat × Rat

/-- Modelled from the spec: `_hex_to_rgb` is absent from the source tree
(only `src/tests/test_palettes.py` imports it). Per the spec, it parses a
7-character string `#RRGGBB` (hex digits case-insensitive) into a triple of
channel values, each the two-hex-digit byte value divided by 255, and fails
with a format error on any other string. -/
def _hex_to_rgb (hex_color : String) : Except String RGB :=
  match hex_color.data with
  | ['#', c1, c2, c3, c4, c5, c6] =>
    match hexDigitVal? c1, hexDigitVal? c2, hexDigitVal? c3,
          hexDigitVal? c4, hexDigitVal? c5, hexDigitVal? c6 with
    | some a, some b, some c, some d, some e, some f =>
      .ok (mkRat (16 * a + b : Nat) 255,
           mkRat (16 * c + d : Nat) 255,
           mkRat (16 * e + f : Nat) 255)
    | _, _, _, _, _, _ => .error ("Invalid hex color: " ++ hex_color)
  | _ => .error ("Invalid hex color: " ++ hex_color)

/-- Clamp a channel value to `[0, 1]` (the spec: values outside `[0,1]` are
clamped, not rejected). -/
def clamp01 (x : Rat) : Rat := max 0 (min 1 x)

/-- Round a rational to the nearest integer, halves up: `⌊x + 1/2⌋`
written with the executable `Rat.floor` (this equals Mathlib's `round`,
see `ratRound_eq_round`). -/
def ratRound (x : Rat) : Int := (x + mkRat 1 2).floor

/-- A channel value to its 8-bit byte: clamp, scale by 255, round to the
nearest integer (ties away from zero for the values that arise here). -/
def channelByte (x : Rat) : Nat := (ratRound (clamp01 x * 255)).toNat

/-- Two lowercase hex digits for a byte in `0..255`. -/
def byteHex (n : Nat) : List Char := [hexChar (n / 16), hexChar (n % 16)]

/-- Modelled from the spec: `_rgb_to_hex` is absent from the source tree
(only the tests import it). Per the spec, each component is clamped to
`[0,1]`, scaled by 255, rounded to the nearest integer, and formatted as two
lowercase hex digits after a leading `#`. -/
def _rgb_to_hex (rgb : RGB) : String :=
  String.mk ('#' :: (byteHex (channelByte rgb.1) ++
    byteHex (channelByte rgb.2.1) ++ byteHex (channelByte rgb.2.2)))

/-- Python `str.lower()` (ASCII case folding suffices for hex strings). -/
def pyLower (s : String) : String := String.mk (s.data.map Char.toLower)

/-- Pure white as an RGB triple. -/
def white : RGB := (1, 1, 1)

/-- Linear interpolation of one channel: at `t = 0` the value is `a`, at
`t = 1` it is `b`. -/
def lerpChannel (a b t : Rat) : Rat := (1 - t) * a + t * b

/-- Per-channel linear interpolation of RGB triples. -/
def lerpRGB (x y : RGB) (t : Rat) : RGB :=
  (lerpChannel x.1 y.1 t, lerpChannel x.2.1 y.2.1 t, lerpChannel x.2.2 y.2.2 t)

/-- Modelled from the spec: `_create_sequential_gradient` is absent from the
source tree (only the tests import it). Per the spec, it produces `n` colors
interpolated per RGB channel from pure white to `target_hex`, sampled at
`t = k/(n-1)` for `k` in `0..n-1`; for `n = 1` it returns the
case-normalized target alone, avoiding the zero denominator. -/
def _create_sequential_gradient (target_hex : String) (n : Nat) :
    Except String (List String) :=
  match _hex_to_rgb target_hex with
  | .error e => .error e
  | .ok target =>
    if n = 1 then .ok [_rgb_to_hex target]
    else .ok ((List.range n).map (fun (k : Nat) =>
        _rgb_to_hex (lerpRGB white target (mkRat (k : Int) (n - 1)))))

/-- Modelled from the spec: `_create_diverging_gradient` is absent from the
source tree (only the tests import it). Per the spec, with `m = n / 2` the
first half interpolates `low_hex` to white over indices `0..m` and the
second half interpolates white to `high_hex` over the remaining
`n - m - 1` indices, each half linearly per channel over its own index
range. -/
def _create_diverging_gradient (low_hex high_hex : String) (n : Nat) :
    Except String (List String) :=
  match _hex_to_rgb low_hex, _hex_to_rgb high_hex with
  | .ok lo, .ok hi =>
    let m := n / 2
    .ok (((List.range (m + 1)).map (fun (k : Nat) =>
            _rgb_to_hex (lerpRGB lo white (mkRat (k : Int) m)))) ++
         ((List.range (n - m - 1)).map (fun (k : Nat) =>
            _rgb_to_hex (lerpRGB white hi (mkRat ((k : Int) + 1) (n - m - 1))))))
  | .error e, _ => .error e
  | _, .error e => .error e

/-- Modelled from the spec: `_get_palette_type` is absent from the source
tree (only the tests import it). Per the spec, it classifies a name by
static membership in the curated colormap name lists of `palettes.py`
(`SEQUENTIAL_CMAPS`, `DIVERGING_CMAPS`), defaulting to qualitative for a
name in neither; it is pure and total. -/
def _get_palette_type (name : String) : String :=
  if name ∈ SEQUENTIAL_CMAPS then "sequential"
  else if name ∈ DIVERGING_CMAPS then "diverging"
  else "qualitative"

/-- A well-formed hex color string: exactly the strings `_hex_to_rgb`
accepts (`#` followed by 6 hex digits). -/
def isHexColor (s : String) : Bool := (_hex_to_rgb s).isOk

/-- Concrete stand-ins for the external matplotlib colormap parameters, used
to instantiate the general theorems at concrete inputs. -/
def unitCmap : String → Rat → Unit := fun _ _ => ()

/-- See `unitCmap`. -/
def unitHex : Unit → String := fun _ => "#000000"

/-! Helper lemmas -/

theorem floor_eq_ratFloor (q : Rat) : q.floor = ⌊q⌋ := rfl

theorem ratRound_eq_round (x : Rat) : ratRound x = round x := by
  rw [ratRound, floor_eq_ratFloor, Rat.mkRat_eq_div, round_eq]
  norm_num

theorem mkRat_natCast_div (n d : Nat) : (mkRat n d : Rat) = (n : Rat) / (d : Rat) := by
  rw [Rat.mkRat_eq_div]
  norm_num

theorem channelByte_byte (n : Nat) (h : n ≤ 255) : channelByte (mkRat n 255) = n := by
  have h0 : (mkRat n 255 : Rat) = (n : Rat) / 255 := mkRat_natCast_div n 255
  have h1 : (0 : Rat) ≤ (n : Rat) / 255 := by positivity
  have h2 : (n : Rat) / 255 ≤ 1 := by
    rw [div_le_one (by norm_num : (0 : Rat) < 255)]
    exact_mod_cast h
  rw [channelByte, clamp01, h0, min_eq_right h2, max_eq_right h1,
    div_mul_cancel₀ _ (by norm_num : (255 : Rat) ≠ 0), ratRound_eq_round, round_natCast]
  exact Int.toNat_natCast n

theorem hexChar_hexDigitVal (c : Char) (v : Nat) (h : hexDigitVal? c = some v) :
    hexChar v = c.toLower ∧ v ≤ 15 := by
  rw [hexDigitVal?] at h
  cases hf : HEX_DIGITS.find? (fun p => p.1 == c) with
  | none => rw [hf] at h; cases h
  | some p =>
    rw [hf] at h
    injection h with h
    have hmem := List.mem_of_find?_eq_some hf
    have hpc : p.1 = c := by simpa using List.find?_some hf
    subst hpc
    subst h
    exact (by decide : ∀ q ∈ HEX_DIGITS, hexChar q.2 = q.1.toLower ∧ q.2 ≤ 15) p hmem

theorem byteHex_split (a b : Nat) (hb : b ≤ 15) :
    byteHex (16 * a + b) = [hexChar a, hexChar b] := by
  rw [byteHex]
  have h1 : (16 * a + b) / 16 = a := by omega
  have h2 : (16 * a + b) % 16 = b := by omega
  rw [h1, h2]

theorem rgb_to_hex_hex_to_rgb (s : String) (rgb : RGB) (h : _hex_to_rgb s = .ok rgb) :
    _rgb_to_hex rgb = pyLower s := by
  unfold _hex_to_rgb at h
  split at h
  case h_2 => cases h
  case h_1 c1 c2 c3 c4 c5 c6 heq =>
    split at h
    case h_2 => cases h
    case h_1 a b c d e f ha hb hc hd he hf =>
      injection h with h
      subst h
      obtain ⟨ea, la⟩ := hexChar_hexDigitVal _ _ ha
      obtain ⟨eb, lb⟩ := hexChar_hexDigitVal _ _ hb
      obtain ⟨ec, lc⟩ := hexChar_hexDigitVal _ _ hc
      obtain ⟨ed, ld⟩ := hexChar_hexDigitVal _ _ hd
      obtain ⟨ee, le'⟩ := hexChar_hexDigitVal _ _ he
      obtain ⟨ef, lf⟩ := hexChar_hexDigitVal _ _ hf
      rw [pyLower, heq]
      rw [_rgb_to_hex]
      simp only []
      rw [channelByte_byte _ (by omega), channelByte_byte _ (by omega),
        channelByte_byte _ (by omega)]
      rw [byteHex_split _ _ lb, byteHex_split _ _ ld, byteHex_split _ _ lf]
      rw [ea, eb, ec, ed, ee, ef]
      rfl

/-! ## Claim C7: hex/RGB round-trip -/

/-- C7: for every valid well-formed 6-digit hex color string `s` (`#` followed
by 6 hex digits, exactly the strings `_hex_to_rgb` accepts), converting to a
normalized RGB triple and back is the identity up to case normalization:
`_rgb_to_hex (_hex_to_rgb s) = s.lower()`. -/
theorem C7_hex_roundtrip (s : String) (rgb : RGB) (h : _hex_to_rgb s = .ok rgb) :
    _rgb_to_hex rgb = pyLower s :=
  rgb_to_hex_hex_to_rgb s rgb h

/-- Witness for C7 at the test's input `#FF0000`. -/
theorem C7_hex_roundtrip_witness :
    _hex_to_rgb "#FF0000" = .ok (1, 0, 0) ∧ _rgb_to_hex (1, 0, 0) = pyLower "#FF0000" :=
  ⟨by decide, C7_hex_roundtrip "#FF0000" (1, 0, 0) (by decide)⟩

/-! Registry helper lemmas -/

theorem dictGet_mem {reg : List (String × List String)} {name : String} {p : List String}
    (h : dictGet reg name = some p) : (name, p) ∈ reg := by
  induction reg with
  | nil => cases h
  | cons hd tl ih =>
    obtain ⟨k, v⟩ := hd
    rw [dictGet] at h
    split at h
    · rename_i hk
      injection h with h
      subst hk
      subst h
      exact List.Mem.head _
    · exact List.Mem.tail _ (ih h)

theorem cmap_palette_length {α : Type} (cmap : Rat → α) (r2h : α → String) (n : Nat) :
    (_create_cmap_colors cmap r2h n).length = n := by
  rw [_create_cmap_colors, List.length_map, linspace01, List.length_map, List.length_range]

theorem registered_nonempty {α : Type} {cmap : String → Rat → α} {r2h : α → String}
    {name : String} {p : List String}
    (h : dictGet (PALETTES cmap r2h) name = some p) : 0 < p.length := by
  have hm := dictGet_mem h
  rw [PALETTES, List.mem_append] at hm
  rcases hm with hm | hm
  · exact (by decide : ∀ pr ∈ JOURNAL_PALETTES, 0 < pr.2.length) _ hm
  · obtain ⟨nm, _, heq⟩ := List.mem_map.1 hm
    have hp : p = _create_cmap_colors (cmap nm) r2h 8 := by
      cases heq
      rfl
    rw [hp, cmap_palette_length]
    decide

theorem get_palette_none_eq {reg : List (String × List String)} {name : String}
    {p : List String} (h : dictGet reg name = some p) :
    get_palette reg name none = .ok p := by
  unfold get_palette
  rw [h]

theorem get_palette_some_eq {reg : List (String × List String)} {name : String}
    {p : List String} (h : dictGet reg name = some p) (hp : 0 < p.length) (n : Int) :
    get_palette reg name (some n) =
      .ok ((List.range n.toNat).map (fun i => p.getD (i % p.length) "")) := by
  unfold get_palette
  rw [h]
  simp [Nat.pos_iff_ne_zero.mp hp]

/-! ## Claim C1: cycling law -/

/-- C1: for every registered palette `p` of length `L` and every requested
count `n`: if `n > L` then `get_palette(name, n)` returns a list of exactly
`n` colors whose element at each index `k` equals `palette[k % L]`; if
`n <= L` it returns exactly the first `n` colors of `p` in order. -/
theorem C1_cycling_law {α : Type} (cmap : String → Rat → α) (r2h : α → String)
    (name : String) (p : List String)
    (h : dictGet (PALETTES cmap r2h) name = some p) (n : Nat) :
    (p.length < n →
      ∃ l, get_palette (PALETTES cmap r2h) name (some (n : Int)) = .ok l ∧
        l.length = n ∧ ∀ k, k < n → l.getD k "" = p.getD (k % p.length) "") ∧
    (n ≤ p.length →
      get_palette (PALETTES cmap r2h) name (some (n : Int)) = .ok (p.take n)) := by
  have hp := registered_nonempty h
  have htn : ((n : Int)).toNat = n := Int.toNat_natCast n
  rw [get_palette_some_eq h hp, htn]
  constructor
  · intro _
    refine ⟨_, rfl, by simp, fun k hk => ?_⟩
    simp [List.getD_eq_getElem?_getD, List.getElem?_map, List.getElem?_range, hk]
  · intro hn
    congr 1
    apply List.ext_getElem?
    intro i
    by_cases hi : i < n
    · have hilen : i < p.length := lt_of_lt_of_le hi hn
      rw [List.getElem?_map, List.getElem?_range hi, List.getElem?_take_of_lt hi,
        List.getElem?_eq_getElem hilen]
      simp only [Option.map_some']
      rw [Nat.mod_eq_of_lt hilen, List.getD_eq_getElem _ _ hilen]
    · have h1 : ((List.range n).map (fun i => p.getD (i % p.length) ""))[i]? = none := by
        rw [List.getElem?_eq_none]
        simpa using Nat.le_of_not_lt hi
      have h2 : (p.take n)[i]? = none := by
        rw [List.getElem?_eq_none]
        exact le_trans (by simp) (Nat.le_of_not_lt hi)
      rw [h1, h2]

/-- Witness for C1 at `name = "npg"`, `n = 15 > 10` and `n = 5 <= 10`. -/
theorem C1_cycling_law_witness :
    (∃ l, get_palette (PALETTES unitCmap unitHex) "npg" (some ((15 : Nat) : Int)) = .ok l ∧
      l.length = 15 ∧ ∀ k, k < 15 → l.getD k "" =
        (["#E64B35", "#4DBBD5", "#00A087", "#3C5488", "#F39B7F",
          "#8491B4", "#91D1C2", "#DC0000", "#7E6148", "#B09C85"]).getD (k % 10) "") ∧
    get_palette (PALETTES unitCmap unitHex) "npg" (some ((5 : Nat) : Int)) =
      .ok (["#E64B35", "#4DBBD5", "#00A087", "#3C5488", "#F39B7F",
            "#8491B4", "#91D1C2", "#DC0000", "#7E6148", "#B09C85"].take 5) :=
  ⟨(C1_cycling_law unitCmap unitHex "npg" _ (by decide) 15).1 (by decide),
   (C1_cycling_law unitCmap unitHex "npg" _ (by decide) 5).2 (by decide)⟩

/-! ## Claim C4: n_colors=None returns the full palette -/

/-- C4: for every registered name, `get_palette(name)` with `n_colors` left
as `None` returns the full registered color list, unmodified and in
registration order; in particular `get_palette("npg")` returns the 10
hardcoded NPG hex strings in their exact registration order. -/
theorem C4_full_palette {α : Type} (cmap : String → Rat → α) (r2h : α → String) :
    (∀ name p, dictGet (PALETTES cmap r2h) name = some p →
      get_palette (PALETTES cmap r2h) name none = .ok p) ∧
    get_palette (PALETTES cmap r2h) "npg" none =
      .ok ["#E64B35", "#4DBBD5", "#00A087", "#3C5488", "#F39B7F",
           "#8491B4", "#91D1C2", "#DC0000", "#7E6148", "#B09C85"] := by
  constructor
  · intro name p h
    exact get_palette_none_eq h
  · exact get_palette_none_eq rfl

/-- Witness for C4 at the registered name `"lancet"`. -/
theorem C4_full_palette_witness :
    get_palette (PALETTES unitCmap unitHex) "lancet" none =
      .ok ["#00468B", "#ED0000", "#42B540", "#0099B4", "#925E9F",
           "#FDAF91", "#AD002A", "#ADB6B6"] :=
  (C4_full_palette unitCmap unitHex).1 "lancet" _ (by decide)

/-! ## Claim C10: n_colors <= 0 returns the empty list -/

/-- C10: for every registered palette name, calling `get_palette(name,
n_colors)` with `n_colors` equal to 0 or to any negative integer returns the
empty list: it does not raise and does not fall back to the full palette. -/
theorem C10_nonpositive_count {α : Type} (cmap : String → Rat → α) (r2h : α → String)
    (name : String) (p : List String)
    (h : dictGet (PALETTES cmap r2h) name = some p) (n : Int) (hn : n ≤ 0) :
    get_palette (PALETTES cmap r2h) name (some n) = .ok [] := by
  rw [get_palette_some_eq h (registered_nonempty h) n, Int.toNat_of_nonpos hn]
  rfl

/-- Witness for C10 at `"npg"` with `n = -5` and `"jama"` with `n = 0`. -/
theorem C10_nonpositive_count_witness :
    get_palette (PALETTES unitCmap unitHex) "npg" (some (-5)) = .ok [] ∧
    get_palette (PALETTES unitCmap unitHex) "jama" (some 0) = .ok [] :=
  ⟨C10_nonpositive_count unitCmap unitHex "npg"
      ["#E64B35", "#4DBBD5", "#00A087", "#3C5488", "#F39B7F",
       "#8491B4", "#91D1C2", "#DC0000", "#7E6148", "#B09C85"] (by decide) (-5) (by decide),
   C10_nonpositive_count unitCmap unitHex "jama"
      ["#374E55", "#DF8F44", "#00A1D5", "#B24745", "#79AF97",
       "#6A6599", "#80796B"] (by decide) 0 (by decide)⟩

theorem data_append (s t : String) : (s ++ t).data = s.data ++ t.data := rfl

theorem joinComma_infix {s : String} {l : List String} (h : s ∈ l) :
    ∃ u v, (joinComma l).data = u ++ s.data ++ v := by
  induction l with
  | nil => cases h
  | cons a tl ih =>
    cases tl with
    | nil =>
      cases h with
      | head => exact ⟨[], [], by simp [joinComma]⟩
      | tail _ h2 => cases h2
    | cons b tl2 =>
      cases h with
      | head =>
        exact ⟨[], (", " ++ joinComma (b :: tl2)).data,
          by simp [joinComma, data_append, List.append_assoc]⟩
      | tail _ h2 =>
        obtain ⟨u, v, huv⟩ := ih h2
        exact ⟨(a ++ ", ").data ++ u, v,
          by simp [joinComma, data_append, huv, List.append_assoc]⟩

/-! ## Claim C3: unknown palette name raises, listing available names -/

/-- C3: for every name not present in the registry, `get_palette` raises an
unknown-palette `ValueError` whose message lists (as quoted substrings) every
available palette name; for every name that is present, `get_palette` returns
a result normally, never substituting a default palette. -/
theorem C3_unknown_palette_error {α : Type} (cmap : String → Rat → α) (r2h : α → String)
    (name : String) :
    (dictGet (PALETTES cmap r2h) name = none →
      (∀ n, get_palette (PALETTES cmap r2h) name n =
        .error (.valueError (unknown_palette_msg (PALETTES cmap r2h) name))) ∧
      (sortedKeys (PALETTES cmap r2h)).Perm ((PALETTES cmap r2h).map Prod.fst) ∧
      (∀ k ∈ (PALETTES cmap r2h).map Prod.fst, ∃ u v,
        (unknown_palette_msg (PALETTES cmap r2h) name).data = u ++ (quoteStr k).data ++ v)) ∧
    (∀ p, dictGet (PALETTES cmap r2h) name = some p → ∀ n,
      ∃ l, get_palette (PALETTES cmap r2h) name n = .ok l) := by
  constructor
  · intro h
    refine ⟨fun n => ?_, List.mergeSort_perm _ _, fun k hk => ?_⟩
    · unfold get_palette
      rw [h]
    · have hk2 : k ∈ sortedKeys (PALETTES cmap r2h) :=
        ((List.mergeSort_perm ((PALETTES cmap r2h).map Prod.fst) _).mem_iff).2 hk
      obtain ⟨u, v, huv⟩ := joinComma_infix (List.mem_map_of_mem quoteStr hk2)
      refine ⟨("Unknown palette \x27" ++ name ++ "\x27. Available palettes: " ++ "[").data ++ u,
        v ++ "]".data, ?_⟩
      have hmsg : (unknown_palette_msg (PALETTES cmap r2h) name).data =
          ("Unknown palette \x27" ++ name ++ "\x27. Available palettes: " ++ "[").data ++
            ((joinComma ((sortedKeys (PALETTES cmap r2h)).map quoteStr)).data ++ "]".data) := by
        simp [unknown_palette_msg, pyListRepr, data_append, List.append_assoc]
      rw [hmsg, huv]
      simp [List.append_assoc]
  · intro p h n
    cases n with
    | none => exact ⟨p, get_palette_none_eq h⟩
    | some n => exact ⟨_, get_palette_some_eq h (registered_nonempty h) n⟩

/-- Witness for C3 at the unregistered name `"turbo"` and the registered
name `"npg"`. -/
theorem C3_unknown_palette_error_witness :
    get_palette (PALETTES unitCmap unitHex) "turbo" none =
      .error (.valueError (unknown_palette_msg (PALETTES unitCmap unitHex) "turbo")) ∧
    ∃ l, get_palette (PALETTES unitCmap unitHex) "npg" (some 3) = .ok l :=
  ⟨((C3_unknown_palette_error unitCmap unitHex "turbo").1 (by decide)).1 none,
   (C3_unknown_palette_error unitCmap unitHex "npg").2
      ["#E64B35", "#4DBBD5", "#00A087", "#3C5488", "#F39B7F",
       "#8491B4", "#91D1C2", "#DC0000", "#7E6148", "#B09C85"] (by decide) (some 3)⟩

theorem dictGet_append_of_not_mem {A B : List (String × List String)} {name : String}
    (h : ¬ name ∈ A.map Prod.fst) : dictGet (A ++ B) name = dictGet B name := by
  induction A with
  | nil => rfl
  | cons hd tl ih =>
    obtain ⟨k, v⟩ := hd
    rw [List.cons_append, dictGet]
    rw [List.map_cons] at h
    have hk : name ≠ k := fun e => h (e ▸ List.Mem.head _)
    rw [if_neg hk]
    exact ih (fun hm => h (List.Mem.tail _ hm))

theorem dictGet_map_pair (f : String → List String) {l : List String} {nm : String}
    (h : nm ∈ l) : dictGet (l.map (fun x => (x, f x))) nm = some (f nm) := by
  induction l with
  | nil => cases h
  | cons a tl ih =>
    rw [List.map_cons, dictGet]
    by_cases he : nm = a
    · subst he
      rw [if_pos rfl]
    · rw [if_neg he]
      cases h with
      | head => exact absurd rfl he
      | tail _ h2 => exact ih h2

/-! ## Claim C9: registry safety -/

/-- C9: every palette stored in the registry (the hardcoded journal palettes
and every matplotlib-derived entry, each contributing exactly 8 colors) is a
non-empty list of hex color strings, so for every registered name and every
non-negative `n_colors` the call `get_palette(name, n_colors)` returns
normally with a list of exactly `n_colors` elements. The hypothesis `hr2h`
is matplotlib's contract that `rgb2hex` produces hex color strings. -/
theorem C9_registry_safety {α : Type} (cmap : String → Rat → α) (r2h : α → String)
    (hr2h : ∀ a, isHexColor (r2h a) = true) :
    (∀ pr ∈ PALETTES cmap r2h, pr.2 ≠ [] ∧ ∀ c ∈ pr.2, isHexColor c = true) ∧
    (∀ nm ∈ SEQUENTIAL_CMAPS ++ DIVERGING_CMAPS ++ QUALITATIVE_CMAPS,
      ∃ l, dictGet (PALETTES cmap r2h) nm = some l ∧ l.length = 8) ∧
    (∀ name p, dictGet (PALETTES cmap r2h) name = some p → ∀ n : Int, 0 ≤ n →
      ∃ l, get_palette (PALETTES cmap r2h) name (some n) = .ok l ∧
        (l.length : Int) = n) := by
  refine ⟨?_, ?_, ?_⟩
  · intro pr hm
    rw [PALETTES, List.mem_append] at hm
    rcases hm with hm | hm
    · exact (by decide :
        ∀ pr ∈ JOURNAL_PALETTES, pr.2 ≠ [] ∧ ∀ c ∈ pr.2, isHexColor c = true) _ hm
    · obtain ⟨nm, _, rfl⟩ := List.mem_map.1 hm
      constructor
      · intro hnil
        have h8 := cmap_palette_length (cmap nm) r2h 8
        change _create_cmap_colors (cmap nm) r2h 8 = [] at hnil
        rw [hnil] at h8
        cases h8
      · intro c hc
        rw [_create_cmap_colors] at hc
        obtain ⟨t, _, rfl⟩ := List.mem_map.1 hc
        exact hr2h _
  · intro nm hnm
    rw [PALETTES, dictGet_append_of_not_mem
      ((by decide : ∀ x ∈ SEQUENTIAL_CMAPS ++ DIVERGING_CMAPS ++ QUALITATIVE_CMAPS,
        ¬ x ∈ JOURNAL_PALETTES.map Prod.fst) _ hnm),
      dictGet_map_pair _ hnm]
    exact ⟨_, rfl, cmap_palette_length _ _ 8⟩
  · intro name p h n hn
    refine ⟨_, get_palette_some_eq h (registered_nonempty h) n, ?_⟩
    simp [Int.toNat_of_nonneg hn]

/-- Witness for C9: the matplotlib-derived entry `"viridis"` with
`n_colors = 20`. -/
theorem C9_registry_safety_witness :
    ∃ l, get_palette (PALETTES unitCmap unitHex) "viridis" (some 20) = .ok l ∧
      (l.length : Int) = 20 :=
  (C9_registry_safety unitCmap unitHex
      (fun _ => (by decide : isHexColor "#000000" = true))).2.2 "viridis"
    (List.replicate 8 "#000000") (by decide) 20 (by decide)

/-! ## Claim C8: palette type classification is total -/

/-- C8: `_get_palette_type` is total over all string inputs: for every name,
registered or not, it returns exactly one of "sequential", "diverging" or
"qualitative", and it defaults to "qualitative" for names found in no
curated set. Totality (never raises) is expressed by the embedding being a
total function into these three values. -/
theorem C8_palette_type_total (name : String) :
    (_get_palette_type name = "sequential" ∨ _get_palette_type name = "diverging" ∨
      _get_palette_type name = "qualitative") ∧
    (¬ name ∈ SEQUENTIAL_CMAPS ++ DIVERGING_CMAPS ++ QUALITATIVE_CMAPS →
      _get_palette_type name = "qualitative") := by
  constructor
  · rw [_get_palette_type]
    split_ifs
    · exact .inl rfl
    · exact .inr (.inl rfl)
    · exact .inr (.inr rfl)
  · intro h
    rw [List.mem_append, not_or, List.mem_append, not_or] at h
    rw [_get_palette_type, if_neg h.1.1, if_neg h.1.2]

/-- Witness for C8 at the names the tests check, including the completely
unregistered name "Set1". -/
theorem C8_palette_type_total_witness :
    _get_palette_type "Blues" = "sequential" ∧
    _get_palette_type "RdBu" = "diverging" ∧
    _get_palette_type "npg" = "qualitative" ∧
    _get_palette_type "Set1" = "qualitative" :=
  ⟨by decide, by decide,
   (C8_palette_type_total "npg").2 (by decide),
   (C8_palette_type_total "Set1").2 (by decide)⟩

/-! ## Claim C2: get_palette("npg", i=100) -/

/-- C2, evaluated on the code as written: the source `get_palette` has
parameters `(name, n_colors)` only, so the call `get_palette("npg", i=100)`
dies with `TypeError: get_palette() got an unexpected keyword argument 'i'`
before any index-range check can run; it does not raise the index-range
`ValueError`/`IndexError` the spec describes (and that
`src/tests/test_palettes.py::test_palette_behavior` expects). -/
theorem C2_unexpected_keyword_typeError :
    get_palette_call (PALETTES unitCmap unitHex) "npg" none [("i", 100)] =
      .error (.typeError "get_palette() got an unexpected keyword argument \x27i\x27") :=
  rfl

/-! Gradient helper lemmas -/

theorem mkRat_zero_num (d : Nat) : mkRat 0 d = 0 := by
  rw [Rat.mkRat_eq_div]
  simp

theorem mkRat_self_one {m : Nat} (hm : m ≠ 0) : mkRat (m : Int) m = 1 := by
  rw [Rat.mkRat_eq_div]
  push_cast
  exact div_self (Nat.cast_ne_zero.mpr hm)

theorem lerpRGB_zero (x y : RGB) : lerpRGB x y 0 = x := by
  unfold lerpRGB lerpChannel
  norm_num

theorem lerpRGB_one (x y : RGB) : lerpRGB x y 1 = y := by
  unfold lerpRGB lerpChannel
  norm_num

theorem channelByte_one : channelByte 1 = 255 := by
  have h : clamp01 1 * 255 = ((255 : Nat) : Rat) := by
    rw [clamp01]
    norm_num
  rw [channelByte, h, ratRound_eq_round, round_natCast]
  rfl

theorem rgb_to_hex_white : _rgb_to_hex white = "#ffffff" := by
  show String.mk ('#' :: (byteHex (channelByte 1) ++ byteHex (channelByte 1) ++
    byteHex (channelByte 1))) = "#ffffff"
  rw [channelByte_one]
  decide

theorem getD_map_range (f : Nat → String) {n k : Nat} (hk : k < n) :
    ((List.range n).map f).getD k "" = f k := by
  simp [List.getD_eq_getElem?_getD, List.getElem?_map, List.getElem?_range, hk]

theorem isHexColor_ok {s : String} (h : isHexColor s = true) :
    ∃ rgb, _hex_to_rgb s = .ok rgb := by
  rw [isHexColor] at h
  cases he : _hex_to_rgb s with
  | ok rgb => exact ⟨rgb, rfl⟩
  | error e =>
    rw [he] at h
    cases h

theorem registry_colors_hex {α : Type} (cmap : String → Rat → α) (r2h : α → String)
    (hr2h : ∀ a, isHexColor (r2h a) = true) :
    ∀ pr ∈ PALETTES cmap r2h, ∀ c ∈ pr.2, isHexColor c = true := by
  intro pr hm
  rw [PALETTES, List.mem_append] at hm
  rcases hm with hm | hm
  · exact (by decide : ∀ pr ∈ JOURNAL_PALETTES, ∀ c ∈ pr.2, isHexColor c = true) _ hm
  · obtain ⟨nm, _, rfl⟩ := List.mem_map.1 hm
    intro c hc
    rw [_create_cmap_colors] at hc
    obtain ⟨t, _, rfl⟩ := List.mem_map.1 hc
    exact hr2h _

/-! ## Claim C5: sequential gradient endpoints -/

/-- C5: for every registered palette color `c` and every `n >= 2`,
`_create_sequential_gradient c n` returns a list of `n` hex colors whose
first element is pure white `#ffffff` and whose last element is `c`
lower-cased, with every entry the per-channel linear interpolation between
white and `c` at parameter `k/(n-1)`. The hypothesis `hr2h` is matplotlib's
contract that `rgb2hex` produces hex color strings. -/
theorem C5_sequential_gradient {α : Type} (cmap : String → Rat → α) (r2h : α → String)
    (hr2h : ∀ a, isHexColor (r2h a) = true) (c : String)
    (hc : ∃ pr ∈ PALETTES cmap r2h, c ∈ pr.2) (n : Nat) (hn : 2 ≤ n) :
    ∃ rgb l, _hex_to_rgb c = .ok rgb ∧ _create_sequential_gradient c n = .ok l ∧
      l.length = n ∧ l.getD 0 "" = "#ffffff" ∧ l.getD (n - 1) "" = pyLower c ∧
      ∀ k, k < n → l.getD k "" =
        _rgb_to_hex (lerpRGB white rgb (mkRat (k : Int) (n - 1))) := by
  obtain ⟨pr, hpr, hcpr⟩ := hc
  obtain ⟨rgb, hrgb⟩ := isHexColor_ok (registry_colors_hex cmap r2h hr2h pr hpr c hcpr)
  have hL : _create_sequential_gradient c n = .ok ((List.range n).map (fun (k : Nat) =>
      _rgb_to_hex (lerpRGB white rgb (mkRat (k : Int) (n - 1))))) := by
    simp only [_create_sequential_gradient, hrgb, if_neg (by omega : ¬ n = 1)]
  refine ⟨rgb, _, hrgb, hL, by simp, ?_, ?_, ?_⟩
  · rw [getD_map_range _ (by omega : 0 < n)]
    simp only [Nat.cast_zero]
    rw [mkRat_zero_num, lerpRGB_zero, rgb_to_hex_white]
  · rw [getD_map_range _ (by omega : n - 1 < n), mkRat_self_one (by omega : n - 1 ≠ 0),
      lerpRGB_one, rgb_to_hex_hex_to_rgb c rgb hrgb]
  · intro k hk
    rw [getD_map_range _ hk]

/-- Witness for C5 at the registered NPG color `#E64B35` with `n = 5`. -/
theorem C5_sequential_gradient_witness :
    ∃ rgb l, _hex_to_rgb "#E64B35" = .ok rgb ∧
      _create_sequential_gradient "#E64B35" 5 = .ok l ∧
      l.length = 5 ∧ l.getD 0 "" = "#ffffff" ∧ l.getD 4 "" = pyLower "#E64B35" ∧
      ∀ k, k < 5 → l.getD k "" =
        _rgb_to_hex (lerpRGB white rgb (mkRat (k : Int) 4)) :=
  C5_sequential_gradient unitCmap unitHex
    (fun _ => (by decide : isHexColor "#000000" = true)) "#E64B35"
    ⟨("npg", ["#E64B35", "#4DBBD5", "#00A087", "#3C5488", "#F39B7F",
              "#8491B4", "#91D1C2", "#DC0000", "#7E6148", "#B09C85"]),
     by decide, by decide⟩ 5 (by decide)

/-! ## Claim C6: diverging gradient midpoint and endpoints -/

/-- C6: for every odd `n >= 3` and every pair of valid hex colors `lo`, `hi`,
`_create_diverging_gradient lo hi n` returns `n` colors whose index 0 equals
`lo` lower-cased, whose index `n - 1` equals `hi` lower-cased, and whose
middle index `n / 2` equals pure white `#ffffff`. -/
theorem C6_diverging_gradient (lo hi : String) (rl rh : RGB)
    (hlo : _hex_to_rgb lo = .ok rl) (hhi : _hex_to_rgb hi = .ok rh)
    (n : Nat) (hodd : n % 2 = 1) (hn : 3 ≤ n) :
    ∃ l, _create_diverging_gradient lo hi n = .ok l ∧ l.length = n ∧
      l.getD 0 "" = pyLower lo ∧ l.getD (n / 2) "" = "#ffffff" ∧
      l.getD (n - 1) "" = pyLower hi := by
  have hL : _create_diverging_gradient lo hi n =
      .ok (((List.range (n / 2 + 1)).map (fun (k : Nat) =>
              _rgb_to_hex (lerpRGB rl white (mkRat (k : Int) (n / 2))))) ++
           ((List.range (n - n / 2 - 1)).map (fun (k : Nat) =>
              _rgb_to_hex (lerpRGB white rh (mkRat ((k : Int) + 1) (n - n / 2 - 1)))))) := by
    simp only [_create_diverging_gradient, hlo, hhi]
  have hlenA : ((List.range (n / 2 + 1)).map (fun (k : Nat) =>
      _rgb_to_hex (lerpRGB rl white (mkRat (k : Int) (n / 2))))).length = n / 2 + 1 := by
    simp
  refine ⟨_, hL, ?_, ?_, ?_, ?_⟩
  · simp
    omega
  · rw [List.getD_append _ _ _ _ (by rw [hlenA]; omega),
      getD_map_range _ (by omega : 0 < n / 2 + 1)]
    simp only [Nat.cast_zero]
    rw [mkRat_zero_num, lerpRGB_zero, rgb_to_hex_hex_to_rgb lo rl hlo]
  · rw [List.getD_append _ _ _ _ (by rw [hlenA]; omega),
      getD_map_range _ (by omega : n / 2 < n / 2 + 1),
      mkRat_self_one (by omega : n / 2 ≠ 0), lerpRGB_one, rgb_to_hex_white]
  · rw [List.getD_append_right _ _ _ _ (by rw [hlenA]; omega), hlenA,
      getD_map_range _ (by omega : n - 1 - (n / 2 + 1) < n - n / 2 - 1)]
    have hnum : ((n - 1 - (n / 2 + 1) : Nat) : Int) + 1 = ((n - n / 2 - 1 : Nat) : Int) := by
      omega
    rw [hnum, mkRat_self_one (by omega : n - n / 2 - 1 ≠ 0), lerpRGB_one,
      rgb_to_hex_hex_to_rgb hi rh hhi]

/-- Witness for C6 at the test's inputs `#FF0000`, `#0000FF`, `n = 5`. -/
theorem C6_diverging_gradient_witness :
    ∃ l, _create_diverging_gradient "#FF0000" "#0000FF" 5 = .ok l ∧ l.length = 5 ∧
      l.getD 0 "" = pyLower "#FF0000" ∧ l.getD 2 "" = "#ffffff" ∧
      l.getD 4 "" = pyLower "#0000FF" :=
  C6_diverging_gradient "#FF0000" "#0000FF" (1, 0, 0) (0, 0, 1)
    (by decide) (by decide) 5 (by decide) (by decide)

end Tidyplots
